import Mathlib

/-!
Shallow embedding of the deployment-orchestration GitHub action
(`src/index.js` and `src/network.js`).

The JavaScript is asynchronous but single-threaded and sequential; every
network interaction is modelled by passing the observed outcome in as an
explicit argument, and every thrown exception is modelled with `Except`.
JS machine numbers appearing here (block numbers, exit codes, array
indices) are small integers, modelled as `Int`/`Nat`.
-/

namespace BB

/-! ## JS value model -/

/-- A scalar value of a parsed response body, as JavaScript sees it
after `JSON.parse`. `truthy` mirrors JavaScript truthiness. -/
inductive JsValue where
  | vnull
  | vbool (b : Bool)
  | vnum (n : Int)
  | vstr (s : String)
deriving DecidableEq

/-- JavaScript truthiness of such a scalar: `null`, `false`, `0` and
`""` are falsy, everything else is truthy. -/
def JsValue.truthy : JsValue → Bool
  | .vnull => false
  | .vbool b => b
  | .vnum n => n != 0
  | .vstr s => s != ""

/-- Truthiness of an optional string field: `undefined`/`null` and the
empty string are falsy. -/
def optStrTruthy : Option String → Bool
  | none => false
  | some s => s != ""

/-- Whether the character list `s` starts with the character list `pat`. -/
def listStarts : List Char → List Char → Bool
  | [], _ => true
  | _ :: _, [] => false
  | p :: ps, c :: cs => p == c && listStarts ps cs

/-- Whether the character list `s` contains `pat` as a contiguous sublist. -/
def listHasSub (pat : List Char) : List Char → Bool
  | [] => listStarts pat []
  | c :: cs => listStarts pat (c :: cs) || listHasSub pat cs

/-- JavaScript `s.includes(pat)`: substring containment. -/
def strIncludes (s pat : String) : Bool := listHasSub pat.data s.data

/-- JavaScript `s.endsWith(pat)`. -/
def strEndsWith (s pat : String) : Bool := listStarts pat.data.reverse s.data.reverse

/-! ## Liveness poller (`checkNodeLiveness`, src/index.js lines 217–247) -/

/-- A probe response as observed by `checkNodeLiveness`: the HTTP status
code of the axios response and the optional `result` field of its JSON
body (`none` when the field is absent). -/
structure ProbeResponse where
  status : Nat
  result : Option JsValue
deriving DecidableEq

/-- A probe outcome: `none` when the axios call threw (network error or a
non-2xx status rejected by axios), otherwise the resolved response. -/
abbrev ProbeOutcome := Option ProbeResponse

/-- The live check applied to a resolved response:
`resp.status === 200 && resp.data.result` (the `result` field must be
present and truthy). -/
def isLiveResponse (r : ProbeResponse) : Bool :=
  r.status == 200 && (match r.result with
    | none => false
    | some v => v.truthy)

/-- The live check applied to a probe outcome: a thrown probe is caught
and counts as not live. -/
def isLiveOutcome : ProbeOutcome → Bool
  | none => false
  | some r => isLiveResponse r

/-- The `while (attempts < maxRetries)` loop of `checkNodeLiveness`.
`probe i` is the outcome of the `i`-th probe (0-based); `remaining` is
`maxRetries - attempts`. Returns the boolean result together with the
number of probes issued. -/
def livenessLoop (probe : Nat → ProbeOutcome) : Nat → Nat → Bool × Nat
  | 0, attempts => (false, attempts)
  | remaining + 1, attempts =>
    if isLiveOutcome (probe attempts) then (true, attempts + 1)
    else livenessLoop probe remaining (attempts + 1)

/-- `checkNodeLiveness(url, maxRetries)`: polls until a live response or
until `maxRetries` probes have been issued. The returned pair is
(boolean result, number of probes issued). The source default for
`maxRetries` is 10 and for `delay` 5000 ms; the delay has no effect on
the value computed and is not modelled. -/
def checkNodeLiveness (probe : Nat → ProbeOutcome) (maxRetries : Nat) : Bool × Nat :=
  livenessLoop probe maxRetries 0

/-! ## Deployment runner (`executeDeploy`, src/index.js lines 254–271) -/

/-- The observable outcome of `executeDeploy`: whether `core.setFailed`
was called, and whether the returned promise rejected (it never does —
both branches of the exit handler call `resolve()`). -/
structure DeployResult where
  setFailedCalled : Bool
  threw : Bool
deriving DecidableEq

/-- JavaScript `code == 1` where `code` is the child-process exit code
(`null` when the process was killed by a signal). -/
def exitIsFailure : Option Int → Bool
  | none => false
  | some c => c == 1

/-- `executeDeploy`: spawns the deploy command and waits for exit.
Exit code 1 calls `core.setFailed`; every other exit code logs success.
The promise always resolves, so no exception is raised either way. -/
def executeDeploy (exitCode : Option Int) : DeployResult :=
  if exitIsFailure exitCode then ⟨true, false⟩ else ⟨false, false⟩

/-! ## Artifact reconciler (`processBroadcastDirectory`, src/index.js lines 44–165)

The on-disk broadcast tree is modelled as a list of filesystem entries.
A file's content is the result of `JSON.parse`: `none` when the file is
not valid JSON (so `JSON.parse` throws), otherwise a record holding the
optional fields the script reads (`transactions`, `receipts`,
`libraries` of a `run-latest.json`; `abi` of a build artifact). -/

/-- One raw log entry of a receipt. -/
structure LogEntry where
  data : String
  topics : List String
deriving DecidableEq

/-- A receipt as read from a `run-latest.json`. `blockNumber` holds the
numeric value of the receipt's block-number string, i.e. the value
`parseInt(receipt.blockNumber)` computes in the sort comparator; the
other fields the script touches are `transactionHash` and `logs`.
Fields the script only copies through unchanged are omitted. -/
structure Receipt where
  transactionHash : String
  blockNumber : Int
  logs : List LogEntry
deriving DecidableEq

/-- A transaction as read from a `run-latest.json`; optional fields are
`none` when absent (JS `undefined`). -/
structure Transaction where
  hash : Option String
  contractName : Option String
  contractAddress : Option String
deriving DecidableEq

/-- The decoded-logs view attached to each receipt: a structural copy of
the raw log with the placeholder event name `"Event"`. -/
structure DecodedLog where
  eventName : String
  data : String
  topics : List String
deriving DecidableEq

/-- A receipt after the log-processing map: the original receipt fields
(`...receipt` spread) plus the attached `decodedLogs`. -/
structure ProcessedReceipt where
  receipt : Receipt
  decodedLogs : List DecodedLog
deriving DecidableEq

/-- An ABI entry of a build artifact; the script only inspects `type`. -/
structure AbiEntry where
  type : String
deriving DecidableEq

/-- A parsed JSON file. Both file kinds the script reads are covered:
a field is `none` exactly when absent from the JSON object. -/
structure JsonFile where
  transactions : Option (List Transaction)
  receipts : Option (List Receipt)
  libraries : Option (List String)
  abi : Option (List AbiEntry)
deriving DecidableEq

/-- A filesystem entry: a file with its parse result (`none` content
means `JSON.parse` on it would throw), or a directory with its entries
in `fs.readdir` enumeration order. -/
inductive FsEntry where
  | file (name : String) (content : Option JsonFile)
  | dir (name : String) (entries : List FsEntry)

/-- The name of a filesystem entry. -/
def FsEntry.entryName : FsEntry → String
  | .file n _ => n
  | .dir n _ => n

/-- A walked file as yielded by the `walk` async generator: its resolved
path, its bare name, and its parsed content. -/
structure FileInfo where
  path : String
  name : String
  content : Option JsonFile
deriving DecidableEq

mutual

/-- The `walk` generator on a single entry rooted at `pathAcc`: files are
yielded, directories are recursed into depth-first in enumeration
order. `pathAcc` is the resolved path of the directory holding the
entry. -/
def walkEntry (pathAcc : String) : FsEntry → List FileInfo
  | .file name content => [⟨pathAcc ++ "/" ++ name, name, content⟩]
  | .dir name entries => walkEntries (pathAcc ++ "/" ++ name) entries

/-- The `walk` generator over a list of entries of the directory at
`pathAcc`. -/
def walkEntries (pathAcc : String) : List FsEntry → List FileInfo
  | [] => []
  | e :: es => walkEntry pathAcc e ++ walkEntries pathAcc es

end

/-- `findDirectory(targetDir, workingDir)`: the first immediate child of
the working directory that is a directory named `targetDir`, or `null`.
Returns the entries of the found directory. -/
def findDirectory (targetDir : String) (workingDir : List FsEntry) : Option (List FsEntry) :=
  workingDir.findSome? fun e => match e with
    | .dir n es => if n == targetDir then some es else none
    | .file _ _ => none

/-- The errors `processBroadcastDirectory` can throw (they are logged
and re-thrown by its catch block, so they propagate to the caller). -/
inductive JsError where
  | jsonParseError
  | notADirectory
deriving DecidableEq

/-- The build-directory scan (src/index.js lines 76–92): for every
walked file named `*.json`, `JSON.parse` it (throwing on invalid JSON)
and collect the `abi` entries whose `type` is `"event"`. The collected
list (`eventAbi`) is not used further by the script; only the possible
exception is observable. -/
def collectEventAbiFiles : List FileInfo → Except JsError (List AbiEntry)
  | [] => .ok []
  | f :: fs =>
    if strEndsWith f.name ".json" then
      match f.content with
      | none => .error .jsonParseError
      | some j =>
        let here := match j.abi with
          | some abi => abi.filter (fun x => x.type == "event")
          | none => []
        (collectEventAbiFiles fs).map (fun rest => here ++ rest)
    else collectEventAbiFiles fs

/-- The accumulating deployment record before the sort phase. -/
structure Deployments where
  transactions : List Transaction
  receipts : List Receipt
  libraries : List String
deriving DecidableEq

/-- Merging one parsed `run-latest.json` into the accumulator: each of
the three arrays is appended when the field is present (a present array
is always truthy in JS, even when empty). -/
def mergeFile (d : Deployments) (j : JsonFile) : Deployments :=
  { transactions := d.transactions ++ j.transactions.getD []
    receipts := d.receipts ++ j.receipts.getD []
    libraries := d.libraries ++ j.libraries.getD [] }

/-- The broadcast-file loop (src/index.js lines 102–123): every walked
file named exactly `run-latest.json` whose resolved path contains
`chainId.toString()` is parsed (throwing on invalid JSON) and merged in
traversal order. -/
def mergeBroadcastFiles (chainId : Nat) : List FileInfo → Deployments → Except JsError Deployments
  | [], d => .ok d
  | f :: fs, d =>
    if f.name == "run-latest.json" && strIncludes f.path (toString chainId) then
      match f.content with
      | none => .error .jsonParseError
      | some j => mergeBroadcastFiles chainId fs (mergeFile d j)
    else mergeBroadcastFiles chainId fs d

/-- The receipt comparator `(a, b) => parseInt(a.blockNumber) - parseInt(b.blockNumber)`
as the total preorder it induces (a JS stable sort with a consistent
comparator is exactly a stable sort by this relation). -/
def leBlockNumber (a b : Receipt) : Bool := a.blockNumber ≤ b.blockNumber

/-- JavaScript `receipts.findIndex(receipt => receipt.transactionHash === h)`:
the index of the first matching receipt, or -1 when none matches. -/
def jsFindIndex (rs : List Receipt) (h : String) : Int :=
  match rs.findIdx? (fun r => r.transactionHash == h) with
  | none => -1
  | some i => (i : Int)

/-- The sort key used for transactions: the `findIndex` into the sorted
receipts of the receipt whose `transactionHash` equals the transaction's
`hash`, or `-1` when no receipt matches (also when the transaction has
no `hash` field, since `receipt.transactionHash === undefined` is false). -/
def txKey (sortedReceipts : List Receipt) (t : Transaction) : Int :=
  match t.hash with
  | none => -1
  | some h => jsFindIndex sortedReceipts h

/-- The transaction comparator `(a, b) => aIndex - bIndex` as the total
preorder it induces. -/
def leTxKey (sortedReceipts : List Receipt) (a b : Transaction) : Bool :=
  txKey sortedReceipts a ≤ txKey sortedReceipts b

/-- The log-processing map over one receipt: `{...receipt, decodedLogs}`
where each log is copied with the placeholder event name `"Event"` (the
try/catch around the copy can never take its catch branch). -/
def decorate (r : Receipt) : ProcessedReceipt :=
  ⟨r, r.logs.map fun l => ⟨"Event", l.data, l.topics⟩⟩

/-- The final deployment record returned by `processBroadcastDirectory`:
the same object after the in-place sort and log-processing phase. -/
structure ProcessedDeployments where
  transactions : List Transaction
  receipts : List ProcessedReceipt
  libraries : List String
deriving DecidableEq

/-- The sort phase (src/index.js lines 125–158): when at least one
receipt was collected, sort receipts by block number (JS stable sort,
modelled by `List.mergeSort`), then sort transactions by the position of
their matching receipt, then attach decoded logs; otherwise leave all
three lists untouched (the receipt list is then empty). -/
def sortPhase (d : Deployments) : ProcessedDeployments :=
  if 0 < d.receipts.length then
    let sortedReceipts := d.receipts.mergeSort leBlockNumber
    ⟨d.transactions.mergeSort (leTxKey sortedReceipts),
      sortedReceipts.map decorate, d.libraries⟩
  else ⟨d.transactions, [], d.libraries⟩

/-- The build-directory step of `processBroadcastDirectory`: `fs.access`
checks whether any entry named `build` exists under the working
directory; when it does, `walk` runs `fs.readdir` on it (throwing when
it is a plain file) and the ABI scan runs over the walked files. Only
the possible exception is observable. -/
def buildStep (workingPath : String) (workingDir : List FsEntry) : Except JsError Unit :=
  match workingDir.find? (fun e => e.entryName == "build") with
  | none => .ok ()
  | some (.file _ _) => .error .notADirectory
  | some (.dir _ es) =>
    (collectEventAbiFiles (walkEntries (workingPath ++ "/build") es)).map (fun _ => ())

/-- The collection phase of `processBroadcastDirectory` (everything
before the sort): locate the broadcast directory (`none` result when it
is absent), run the build ABI scan, then merge all matching
`run-latest.json` files into the accumulator in traversal order. -/
def collectedDeployments (chainId : Nat) (workingPath : String) (workingDir : List FsEntry) :
    Except JsError (Option Deployments) :=
  match findDirectory "broadcast" workingDir with
  | none => .ok none
  | some broadcastEntries =>
    match buildStep workingPath workingDir with
    | .error e => .error e
    | .ok () =>
      (mergeBroadcastFiles chainId
        (walkEntries (workingPath ++ "/broadcast") broadcastEntries) ⟨[], [], []⟩).map some

/-- `processBroadcastDirectory(chainId, workingDir)`: the collection
phase followed by the sort phase. `Except.error` models the re-thrown
exception of its catch block; `.ok none` models the `null` return when
no broadcast directory exists. -/
def processBroadcastDirectory (chainId : Nat) (workingPath : String) (workingDir : List FsEntry) :
    Except JsError (Option ProcessedDeployments) :=
  (collectedDeployments chainId workingPath workingDir).map (Option.map sortPhase)

/-! ## Block resolver (`src/network.js`) -/

/-- One entry of the `RPC_URL` table: the rotating cursor and the fixed
ordered endpoint list for a chain. -/
structure RpcEntry where
  index : Nat
  urls : List String
deriving DecidableEq

/-- The process-wide `RPC_URL` table, as an association list keyed by
chain id (JS object keys are unique; lookups take the first match). -/
abbrev RpcTable := List (Nat × RpcEntry)

/-- The initial `RPC_URL` table literal of src/network.js lines 1–32. -/
def initialRpcTable : RpcTable :=
  [ (1, ⟨0, ["https://rpc.ankr.com/eth"]⟩),
    (56, ⟨0, ["https://rpc.ankr.com/bsc"]⟩),
    (137, ⟨0, ["https://rpc.ankr.com/polygon"]⟩),
    (80002, ⟨0, ["https://rpc.ankr.com/polygon_amoy"]⟩),
    (10, ⟨0, ["https://rpc.ankr.com/optimism"]⟩),
    (42161, ⟨0, ["https://rpc.ankr.com/arbitrum"]⟩),
    (421614, ⟨0, ["https://rpc.ankr.com/arbitrum_sepolia"]⟩),
    (11155111, ⟨0, ["https://rpc.ankr.com/eth_sepolia"]⟩),
    (43114, ⟨0, ["https://rpc.ankr.com/avalanche"]⟩),
    (2222, ⟨0, ["https://evm.kava.io"]⟩),
    (1101, ⟨0, ["https://zkevm-rpc.com"]⟩),
    (59144, ⟨0, ["https://rpc.linea.build"]⟩),
    (59141, ⟨0, ["https://rpc.sepolia.linea.build"]⟩),
    (100, ⟨0, ["https://rpc.ankr.com/gnosis"]⟩),
    (97, ⟨0, ["https://rpc.ankr.com/bsc_testnet_chapel"]⟩),
    (165, ⟨0, ["https://testnet.omni.network"]⟩) ]

/-- Lookup `RPC_URL[chainId]`. -/
def lookupRpc (t : RpcTable) (chainId : Nat) : Option RpcEntry :=
  (t.find? (fun p => p.1 == chainId)).map (·.2)

/-- The assignment `RPC_URL[chainId].index = i` on the table. -/
def setRpcIndex (t : RpcTable) (chainId : Nat) (i : Nat) : RpcTable :=
  t.map fun p => if p.1 == chainId then (p.1, ⟨i, p.2.urls⟩) else p

/-- The errors of the block resolver. The spec names the property access
`RPC_URL[chainId].index` on an unconfigured chain (a JS `TypeError`)
`UnsupportedChain`, and a thrown fetch or non-ok response
`UpstreamError`. -/
inductive NetworkError where
  | unsupportedChain
  | upstreamError
deriving DecidableEq

/-- `getRpc(chainId)`: read the cursor, advance it modulo the list
length, and return the URL at the old cursor (`undefined`, i.e. `none`,
when the old cursor is out of range) together with the updated table. -/
def getRpc (t : RpcTable) (chainId : Nat) :
    Except NetworkError (Option String × RpcTable) :=
  match lookupRpc t chainId with
  | none => .error .unsupportedChain
  | some e =>
    .ok (e.urls[e.index]?, setRpcIndex t chainId ((e.index + 1) % e.urls.length))

/-- The value of one hexadecimal digit, as accepted by `parseInt` with
radix 16 (code points 48–57 are the digits, 97–102 and 65–70 the lower-
and upper-case letters a–f). -/
def hexDigitVal? (c : Char) : Option Nat :=
  let cp := c.toNat
  if 48 ≤ cp ∧ cp ≤ 57 then some (cp - 48)
  else if 97 ≤ cp ∧ cp ≤ 102 then some (cp - 87)
  else if 65 ≤ cp ∧ cp ≤ 70 then some (cp - 55)
  else none

/-- The value of the longest hex-digit run at the head of `cs`, folded
onto `acc`. -/
def hexDigitsVal (acc : Nat) : List Char → Nat
  | [] => acc
  | c :: cs =>
    match hexDigitVal? c with
    | some v => hexDigitsVal (acc * 16 + v) cs
    | none => acc

/-- The digit phase of `parseInt(·, 16)`: `none` (JS `NaN`) when no
leading hex digit exists, otherwise the value of the longest leading
hex-digit run. -/
def parseHexDigits (cs : List Char) : Option Nat :=
  match cs with
  | [] => none
  | c :: _ =>
    match hexDigitVal? c with
    | none => none
    | some _ => some (hexDigitsVal 0 cs)

/-- JavaScript `parseInt(s, 16)` on an already-trimmed string: optional
sign, optional `0x`/`0X` marker, then the longest run of hex digits;
`none` models `NaN`. -/
def jsParseIntHex (s : String) : Option Int :=
  let step1 : Int × List Char :=
    match s.data with
    | '-' :: rest => (-1, rest)
    | '+' :: rest => (1, rest)
    | cs => (1, cs)
  let step2 : List Char :=
    match step1.2 with
    | '0' :: 'x' :: rest => rest
    | '0' :: 'X' :: rest => rest
    | cs => cs
  (parseHexDigits step2).map (fun n => step1.1 * n)

/-- The `fetch` outcome observed by `getLatestBlockNumber`: `none` when
the fetch itself threw, otherwise `response.ok` together with the
optional `result` field of the decoded JSON body. -/
structure HttpOutcome where
  ok : Bool
  result : Option String
deriving DecidableEq

/-- `getLatestBlockNumber(chainId)`: pick the next round-robin URL via
`getRpc`, issue one `eth_blockNumber` call (its outcome is the `resp`
argument; no internal retry exists, a second call would need a second
outcome), throw on a thrown fetch or a non-ok status, and otherwise
return `parseInt(data.result, 16)` (`none` models `NaN`, which is what
`parseInt` yields when the `result` field is absent or not
hexadecimal). The updated cursor table is returned alongside. -/
def getLatestBlockNumber (t : RpcTable) (chainId : Nat) (resp : Option HttpOutcome) :
    Except NetworkError (Option Int × RpcTable) :=
  match getRpc t chainId with
  | .error e => .error e
  | .ok (_url, t') =>
    match resp with
    | none => .error .upstreamError
    | some r =>
      if !r.ok then .error .upstreamError
      else .ok ((match r.result with
        | none => none
        | some s => jsParseIntHex s), t')

/-! ## Notifier (`extractContractData`, `validateDeployment`,
`sendNotificationToBackend`, src/index.js lines 278–373) -/

/-- A per-chain deployment record as pushed onto `allDeployments` by the
main loop: `deployments` is the result of `processBroadcastDirectory`
(`none` when it returned `null`). -/
structure DeploymentRecord where
  chainId : Nat
  rpcUrl : String
  sandboxId : String
  status : String
  deployments : Option ProcessedDeployments
deriving DecidableEq

/-- A transaction as included in the notification payload. -/
structure ExtractedTx where
  contractName : String
  hash : String
  contractAddress : String
deriving DecidableEq

/-- A record as included in the notification payload. -/
structure ExtractedRecord where
  chainId : Option Nat
  rpcUrl : Option String
  sandboxId : Option String
  transactions : List ExtractedTx
deriving DecidableEq

/-- JavaScript `x || null` on a number (0 is falsy). -/
def jsOrNullNat (n : Nat) : Option Nat := if n == 0 then none else some n

/-- JavaScript `x || null` on a string ("" is falsy). -/
def jsOrNullStr (s : String) : Option String := if s == "" then none else some s

/-- The filter predicate `tx.contractName && tx.hash && tx.contractAddress`:
all three fields present and truthy. -/
def txComplete (t : Transaction) : Bool :=
  optStrTruthy t.contractName && optStrTruthy t.hash && optStrTruthy t.contractAddress

/-- The per-item body of `extractContractData`: project the identifying
fields, and keep only complete transactions (an absent `transactions`
array — in particular `deployments` being `null` — yields `[]`). -/
def extractOne (item : DeploymentRecord) : ExtractedRecord :=
  { chainId := jsOrNullNat item.chainId
    rpcUrl := jsOrNullStr item.rpcUrl
    sandboxId := jsOrNullStr item.sandboxId
    transactions :=
      match item.deployments with
      | none => []
      | some dd =>
        (dd.transactions.filter txComplete).map fun t =>
          ⟨t.contractName.getD "", t.hash.getD "", t.contractAddress.getD ""⟩ }

/-- `extractContractData` on the (always-array) deployment list. -/
def extractContractData (data : List DeploymentRecord) : List ExtractedRecord :=
  data.map extractOne

/-- `validateDeployment(extractedData)`: valid exactly when some
extracted record has a non-empty transaction list; returns the pair
(valid, message). -/
def validateDeployment (extractedData : List ExtractedRecord) : Bool × String :=
  let hasValidTransactions := extractedData.any fun d => 0 < d.transactions.length
  if !hasValidTransactions then
    (false, "No contract deployments found. All transactions are missing required data.")
  else (true, "Deployment successful")

/-- The argument object of `sendNotificationToBackend`. -/
structure NotificationInput where
  status : String
  summary : Option String
  deployments : List DeploymentRecord
deriving DecidableEq

/-- The observable outcome of `sendNotificationToBackend`:
`sentPayload` is the (status, message, deployments) triple of the
payload delivered to the endpoint (`none` when the POST threw), and
`setFailedCalled` records whether `core.setFailed` ran. -/
structure NotificationOutcome where
  sentPayload : Option (String × String × List ExtractedRecord)
  setFailedCalled : Bool
deriving DecidableEq

/-- `sendNotificationToBackend(deploymentData)`: for a status other than
`"started"`/`"failed"`, extract the contract data and downgrade the
status to `"failed"` when validation finds no usable transaction; POST
the payload (`postOk` is the outcome of that axios call); and only
after a successful POST call `core.setFailed` when the status was
downgraded. A thrown POST is caught and swallowed, skipping the
`core.setFailed` call as well. -/
def sendNotificationToBackend (input : NotificationInput) (postOk : Bool) :
    NotificationOutcome :=
  let status0 := input.status
  let summary0 := input.summary.getD ""
  let processed : String × String × List ExtractedRecord :=
    if status0 != "started" && status0 != "failed" then
      let deps := extractContractData input.deployments
      let v := validateDeployment deps
      if !v.1 then ("failed", v.2, deps) else (status0, summary0, deps)
    else (status0, summary0, [])
  if postOk then
    { sentPayload := some processed
      setFailedCalled := processed.1 == "failed" && status0 != "failed" }
  else { sentPayload := none, setFailedCalled := false }

/-! ## Run coordinator (the main async IIFE loop, src/index.js lines 397–455) -/

/-- One requested chain of the `network` input array. -/
structure ChainRequest where
  chainId : Nat
  blockNumber : Option Int
deriving DecidableEq

/-- The external-world outcomes one chain's iteration observes:
the block resolution result when it is needed (`.error` models a thrown
`getLatestBlockNumber`), the `createNode` result (rpcUrl and sandboxId,
`.error` models a thrown provisioning call), the probe outcomes of the
liveness poll, the deploy command's exit code, and the working tree as
`processBroadcastDirectory` finds it after the deploy command ran. -/
structure ChainEnv where
  resolveBlock : Except Unit Int
  createNodeResult : Except Unit (String × String)
  probes : Nat → ProbeOutcome
  deployExitCode : Option Int
  treeAfterDeploy : List FsEntry

/-- The run state accumulated across the chain loop: the
`allDeployments` array and whether `core.setFailed` has been called. -/
structure RunState where
  allDeployments : List DeploymentRecord
  setFailedCalled : Bool

/-- Whether a chain's liveness poll (with the source's default of 10
retries) reports live. -/
def chainLive (env : ChainEnv) : Bool := (checkNodeLiveness env.probes 10).1

/-- The block number one iteration uses: the request's own when
present, otherwise the resolver's (possibly thrown) outcome. -/
def resolveBlockNumber (req : ChainRequest) (env : ChainEnv) : Except Unit Int :=
  match req.blockNumber with
  | none => env.resolveBlock
  | some b => .ok b

/-- One iteration of the chain loop: resolve the block number when the
request has none (a thrown resolution aborts the whole run), create the
node (a thrown creation aborts the run), poll liveness; when live, run
the deploy command (recording its failure signal), reconcile the
broadcast tree (a thrown reconciliation aborts the run), and append a
`status: "success"` record; when not live, log and skip — appending
nothing. -/
def processChain (workingPath : String) (st : RunState) (req : ChainRequest)
    (env : ChainEnv) : Except Unit RunState :=
  match resolveBlockNumber req env with
  | .error e => .error e
  | .ok _blockNumber =>
    match env.createNodeResult with
    | .error e => .error e
    | .ok (rpcUrl, sandboxId) =>
      if chainLive env then
        let dep := executeDeploy env.deployExitCode
        match processBroadcastDirectory req.chainId workingPath env.treeAfterDeploy with
        | .error _ => .error ()
        | .ok deploymentData =>
          .ok ⟨st.allDeployments ++
                [⟨req.chainId, rpcUrl, sandboxId, "success", deploymentData⟩],
              st.setFailedCalled || dep.setFailedCalled⟩
      else .ok st

/-- The `for (const net of network)` loop over all requests paired with
their observed environments. -/
def runLoop (workingPath : String) :
    List (ChainRequest × ChainEnv) → RunState → Except Unit RunState
  | [], st => .ok st
  | (req, env) :: rest, st =>
    match processChain workingPath st req env with
    | .error e => .error e
    | .ok st' => runLoop workingPath rest st'

/-- The whole coordinator run over the requested chains, starting from
the empty `allDeployments` array. -/
def runCoordinator (workingPath : String) (chains : List (ChainRequest × ChainEnv)) :
    Except Unit RunState :=
  runLoop workingPath chains ⟨[], false⟩

/-! ## Concrete instances used to exercise the definitions -/

/-- Receipt at block 30, correlated with transaction hash `0xa`. -/
def r30 : Receipt := ⟨"0xa", 30, [⟨"d0", ["t0"]⟩]⟩

/-- Receipt at block 10, correlated with transaction hash `0xb`. -/
def r10 : Receipt := ⟨"0xb", 10, []⟩

/-- Receipt at block 20, correlated with transaction hash `0xc`. -/
def r20 : Receipt := ⟨"0xc", 20, []⟩

/-- Transaction whose receipt is at block 30. -/
def t30 : Transaction := ⟨some "0xa", some "Foo", some "0x1"⟩

/-- Transaction whose receipt is at block 10. -/
def t10 : Transaction := ⟨some "0xb", some "Bar", some "0x2"⟩

/-- Transaction whose receipt is at block 20. -/
def t20 : Transaction := ⟨some "0xc", some "Baz", some "0x3"⟩

/-- A `run-latest.json` with receipts at block numbers [30, 10, 20] and
matching transactions. -/
def runJson0 : JsonFile :=
  ⟨some [t30, t10, t20], some [r30, r10, r20], some ["lib1"], none⟩

/-- A broadcast tree holding `runJson0` for chain 31337. -/
def tree0 : List FsEntry :=
  [FsEntry.dir "broadcast"
    [FsEntry.dir "Deploy.s.sol"
      [FsEntry.dir "31337"
        [FsEntry.file "run-latest.json" (some runJson0)]]]]

/-- The merged (pre-sort) deployments collected from `tree0`. -/
def d0 : Deployments := ⟨[t30, t10, t20], [r30, r10, r20], ["lib1"]⟩

/-- The reconciled output for `tree0`: receipts reordered to blocks
[10, 20, 30] and transactions following their receipts. -/
def out0 : ProcessedDeployments :=
  ⟨[t10, t20, t30], [decorate r10, decorate r20, decorate r30], ["lib1"]⟩

/-- A working tree with an empty broadcast directory and a build
directory holding a file that is not valid JSON. -/
def treeBadBuild : List FsEntry :=
  [FsEntry.dir "broadcast" [],
   FsEntry.dir "build" [FsEntry.file "bad.json" none]]

/-- A working tree with no broadcast directory at all. -/
def treeNoBroadcast : List FsEntry := [FsEntry.dir "src" []]

/-- A working tree whose only `run-latest.json` lives under chain 42, so
chain 7 matches zero files (no path segment contains "7"). -/
def treeOtherChain : List FsEntry :=
  [FsEntry.dir "broadcast"
    [FsEntry.dir "42" [FsEntry.file "run-latest.json" (some runJson0)]]]

/-- A probe sequence that is dead twice and then answers live. -/
def probeAfterTwo : Nat → ProbeOutcome :=
  fun i => if i < 2 then none else some ⟨200, some (JsValue.vstr "0x7a69")⟩

/-- A probe sequence that never answers. -/
def probeNever : Nat → ProbeOutcome := fun _ => none

/-- A single requested chain. -/
def reqOne : ChainRequest := ⟨1, some 5⟩

/-- A chain environment whose sandbox never reports live; every other
interaction succeeds. -/
def envSkip : ChainEnv := ⟨.ok 1, .ok ("http://rpc", "sb-1"), probeNever, some 0, []⟩

/-- A chain environment whose sandbox is live after two dead probes and
whose working tree is `tree0`. -/
def envLive (exitCode : Option Int) : ChainEnv :=
  ⟨.ok 1, .ok ("http://rpc", "sb-1"), probeAfterTwo, exitCode, tree0⟩

/-- A transaction that is on disk but has no `contractAddress`. -/
def txNoAddr : Transaction := ⟨some "0xdead", some "Foo", none⟩

/-- A mechanically successful per-chain record whose only transaction
lacks a `contractAddress`. -/
def recNoAddr : DeploymentRecord :=
  ⟨1, "http://rpc", "sb-1", "success", some ⟨[txNoAddr], [], []⟩⟩

/-- A run-completion notification input whose records are all
`"success"` but whose extracted transactions are empty. -/
def notifInput0 : NotificationInput := ⟨"success", none, [recNoAddr]⟩

/-! ## Theorems -/

attribute [local semireducible] List.merge List.mergeSort

/-- Exhaustion: when every probe in the window is dead, the loop runs to
the end of its budget and reports false. -/
theorem livenessLoop_exhaust (probe : Nat → ProbeOutcome) :
    ∀ remaining attempts,
      (∀ i, attempts ≤ i → i < attempts + remaining → isLiveOutcome (probe i) = false) →
      livenessLoop probe remaining attempts = (false, attempts + remaining)
  | 0, attempts, _ => by simp [livenessLoop]
  | remaining + 1, attempts, h => by
    have h0 : isLiveOutcome (probe attempts) = false :=
      h attempts (Nat.le_refl _) (by omega)
    have ih := livenessLoop_exhaust probe remaining (attempts + 1)
      (fun i h1 h2 => h i (by omega) (by omega))
    simp [livenessLoop, h0, ih]
    omega

/-- First success: when probes `attempts ≤ i < N` are dead and probe `N`
is live, the loop stops right after probe `N`. -/
theorem livenessLoop_first_success (probe : Nat → ProbeOutcome) :
    ∀ remaining attempts N,
      attempts ≤ N → N < attempts + remaining →
      (∀ i, attempts ≤ i → i < N → isLiveOutcome (probe i) = false) →
      isLiveOutcome (probe N) = true →
      livenessLoop probe remaining attempts = (true, N + 1)
  | 0, attempts, N, hle, hlt, _, _ => by omega
  | remaining + 1, attempts, N, hle, hlt, hfail, hsucc => by
    by_cases hN : attempts = N
    · subst hN
      simp [livenessLoop, hsucc]
    · have h0 : isLiveOutcome (probe attempts) = false :=
        hfail attempts (Nat.le_refl _) (by omega)
      have ih := livenessLoop_first_success probe remaining (attempts + 1) N
        (by omega) (by omega) (fun i h1 h2 => hfail i (by omega) h2) hsucc
      simp [livenessLoop, h0, ih]

/-- The probe count of the loop never exceeds its budget. -/
theorem livenessLoop_count_le (probe : Nat → ProbeOutcome) :
    ∀ remaining attempts, (livenessLoop probe remaining attempts).2 ≤ attempts + remaining
  | 0, attempts => by simp [livenessLoop]
  | remaining + 1, attempts => by
    by_cases h : isLiveOutcome (probe attempts) = true
    · simp [livenessLoop, h]
    · have ih := livenessLoop_count_le probe remaining (attempts + 1)
      simp only [Bool.not_eq_true] at h
      simp [livenessLoop, h]
      omega

/-- C4: for every `N < maxRetries`, a run of `N` unsuccessful probes
followed by a successful probe makes `checkNodeLiveness` return true
after exactly `N + 1` probes; when all `maxRetries` probes are
unsuccessful it returns false after exactly `maxRetries` probes; and in
every case the number of probes issued never exceeds `maxRetries`. -/
theorem c4_liveness_bounded_retry (probe : Nat → ProbeOutcome) (maxRetries N : Nat) :
    (N < maxRetries →
      (∀ i, i < N → isLiveOutcome (probe i) = false) →
      isLiveOutcome (probe N) = true →
      checkNodeLiveness probe maxRetries = (true, N + 1)) ∧
    ((∀ i, i < maxRetries → isLiveOutcome (probe i) = false) →
      checkNodeLiveness probe maxRetries = (false, maxRetries)) ∧
    (checkNodeLiveness probe maxRetries).2 ≤ maxRetries :=
  ⟨fun hN hfail hsucc =>
    livenessLoop_first_success probe maxRetries 0 N (Nat.zero_le _) (by omega)
      (fun i _ h2 => hfail i h2) hsucc,
   fun hfail => by
    have := livenessLoop_exhaust probe maxRetries 0 (fun i _ h2 => hfail i (by omega))
    simpa [checkNodeLiveness] using this,
   by simpa [checkNodeLiveness] using livenessLoop_count_le probe maxRetries 0⟩

/-- C4 witness: with the source's default of 10 retries, two dead probes
then a live one yield `(true, 3)`; ten dead probes yield `(false, 10)`. -/
theorem c4_liveness_bounded_retry_witness :
    (2 < 10 ∧ checkNodeLiveness probeAfterTwo 10 = (true, 3)) ∧
    checkNodeLiveness probeNever 10 = (false, 10) ∧
    (checkNodeLiveness probeNever 10).2 ≤ 10 :=
  ⟨⟨by omega,
    (c4_liveness_bounded_retry probeAfterTwo 10 2).1 (by omega) (by decide) (by decide)⟩,
   (c4_liveness_bounded_retry probeNever 10 0).2.1 (by decide),
   (c4_liveness_bounded_retry probeNever 10 0).2.2⟩

/-- C3 counterexample: a response with HTTP status 200 whose `result`
field is present (an empty string) is classified NOT live, because the
source tests `resp.data.result` for truthiness, not for presence. -/
theorem c3_present_falsy_counterexample :
    (ProbeResponse.mk 200 (some (JsValue.vstr ""))).status = 200 ∧
    (ProbeResponse.mk 200 (some (JsValue.vstr ""))).result.isSome = true ∧
    isLiveResponse ⟨200, some (JsValue.vstr "")⟩ = false := by
  refine ⟨rfl, rfl, ?_⟩
  decide

/-- C3 amended: a response is classified live exactly when its HTTP
status is 200 and its `result` field is present with a truthy value;
a resolved success status with an absent — or falsy — `result` is not
live, and a thrown probe is caught and counts as not live. -/
theorem c3_live_iff_truthy_result :
    (∀ r : ProbeResponse,
      isLiveResponse r = true ↔
        r.status = 200 ∧ ∃ v, r.result = some v ∧ v.truthy = true) ∧
    isLiveOutcome none = false := by
  refine ⟨fun r => ?_, rfl⟩
  cases r with
  | mk status result =>
    cases result with
    | none => simp [isLiveResponse]
    | some v =>
      simp only [isLiveResponse, Bool.and_eq_true, beq_iff_eq]
      constructor
      · rintro ⟨h1, h2⟩
        exact ⟨h1, v, rfl, h2⟩
      · rintro ⟨h1, w, hw, ht⟩
        cases hw
        exact ⟨h1, ht⟩

/-- C3 witness: a status-200 response with the truthy chain-id result
`"0x7a69"` is live. -/
theorem c3_live_iff_truthy_result_witness :
    isLiveResponse ⟨200, some (JsValue.vstr "0x7a69")⟩ = true :=
  (c3_live_iff_truthy_result.1 ⟨200, some (JsValue.vstr "0x7a69")⟩).2
    ⟨rfl, JsValue.vstr "0x7a69", rfl, by decide⟩

/-- C5: `executeDeploy` never rejects; it calls `core.setFailed` exactly
for exit code 1 and treats every other exit code (including 0, 2, and a
signal-kill `null`) as success. When the node is live, the chain loop
runs reconciliation after the deploy regardless of the exit code and
still appends the record, raising no exception. -/
theorem c5_exit_code_policy :
    (∀ code, (executeDeploy code).threw = false ∧
      ((executeDeploy code).setFailedCalled = true ↔ code = some (1 : Int))) ∧
    (∀ (p : String) (st : RunState) (req : ChainRequest) (env : ChainEnv)
        (deploymentData : Option ProcessedDeployments) (bn : Int) (u s : String),
      req.blockNumber = some bn →
      env.createNodeResult = .ok (u, s) →
      chainLive env = true →
      processBroadcastDirectory req.chainId p env.treeAfterDeploy = .ok deploymentData →
      processChain p st req env =
        .ok ⟨st.allDeployments ++ [⟨req.chainId, u, s, "success", deploymentData⟩],
            st.setFailedCalled || (executeDeploy env.deployExitCode).setFailedCalled⟩) := by
  constructor
  · intro code
    cases code with
    | none => simp [executeDeploy, exitIsFailure]
    | some c =>
      by_cases h : c = 1
      · subst h; simp [executeDeploy, exitIsFailure]
      · simp [executeDeploy, exitIsFailure, h]
  · intro p st req env deploymentData bn u s hbn hcreate hlive hrec
    simp [processChain, resolveBlockNumber, hbn, hcreate, hlive, hrec]

/-- C5 witness: for a live chain over `tree0`, exit codes 0 and 2 do not
set the failure signal and exit code 1 does; in all three cases the
promise resolves and the loop appends the reconciled record. -/
theorem c5_exit_code_policy_witness :
    ((executeDeploy (some 0)).setFailedCalled = false ∧
      (executeDeploy (some 2)).setFailedCalled = false ∧
      (executeDeploy (some 1)).setFailedCalled = true ∧
      (executeDeploy (some 1)).threw = false) ∧
    (∀ code : Option Int,
      processChain "/work" ⟨[], false⟩ ⟨31337, some 5⟩ (envLive code) =
        .ok ⟨[⟨31337, "http://rpc", "sb-1", "success", some out0⟩],
            (executeDeploy code).setFailedCalled⟩) := by
  constructor
  · refine ⟨?_, ?_, ?_, (c5_exit_code_policy.1 (some 1)).1⟩
    · have h := (c5_exit_code_policy.1 (some 0)).2
      simp at h
      simp [h]
    · have h := (c5_exit_code_policy.1 (some 2)).2
      simp at h
      simp [h]
    · exact (c5_exit_code_policy.1 (some 1)).2.2 rfl
  · intro code
    have h := c5_exit_code_policy.2 "/work" ⟨[], false⟩ ⟨31337, some 5⟩ (envLive code)
      (some out0) 5 "http://rpc" "sb-1" rfl rfl rfl rfl
    simpa using h

/-- The receipt comparator is transitive. -/
theorem leBlockNumber_trans : ∀ a b c : Receipt,
    leBlockNumber a b → leBlockNumber b c → leBlockNumber a c := by
  intro a b c h1 h2
  simp only [leBlockNumber, decide_eq_true_eq] at *
  omega

/-- The receipt comparator is total. -/
theorem leBlockNumber_total : ∀ a b : Receipt,
    leBlockNumber a b || leBlockNumber b a := by
  intro a b
  simp only [leBlockNumber, Bool.or_eq_true, decide_eq_true_eq]
  omega

/-- The transaction comparator is transitive. -/
theorem leTxKey_trans (rs : List Receipt) : ∀ a b c : Transaction,
    leTxKey rs a b → leTxKey rs b c → leTxKey rs a c := by
  intro a b c h1 h2
  simp only [leTxKey, decide_eq_true_eq] at *
  omega

/-- The transaction comparator is total. -/
theorem leTxKey_total (rs : List Receipt) : ∀ a b : Transaction,
    leTxKey rs a b || leTxKey rs b a := by
  intro a b
  simp only [leTxKey, Bool.or_eq_true, decide_eq_true_eq]
  omega

/-- With at least one receipt collected, the sort phase takes its
sorting branch. -/
theorem sortPhase_pos (d : Deployments) (h : d.receipts ≠ []) :
    sortPhase d =
      ⟨d.transactions.mergeSort (leTxKey (d.receipts.mergeSort leBlockNumber)),
        (d.receipts.mergeSort leBlockNumber).map decorate, d.libraries⟩ := by
  have hlen : 0 < d.receipts.length := List.length_pos.mpr h
  simp [sortPhase, hlen]

/-- Decoration only adds the decoded-logs view: projecting the receipt
back recovers the input list. -/
theorem map_receipt_decorate (l : List Receipt) :
    (l.map decorate).map ProcessedReceipt.receipt = l := by
  induction l with
  | nil => rfl
  | cons a l ih =>
    simp only [List.map_cons, ih]
    rfl

/-- A `findIndex` result is at least -1. -/
theorem jsFindIndex_ge_neg_one (rs : List Receipt) (h : String) : -1 ≤ jsFindIndex rs h := by
  unfold jsFindIndex
  cases rs.findIdx? (fun r => r.transactionHash == h) with
  | none =>
    show (-1 : Int) ≤ -1
    omega
  | some i =>
    show (-1 : Int) ≤ (i : Int)
    omega

/-- Every transaction sort key is at least -1. -/
theorem txKey_ge_neg_one (rs : List Receipt) (t : Transaction) : -1 ≤ txKey rs t := by
  cases ht : t.hash with
  | none => simp [txKey, ht]
  | some h =>
    simp only [txKey, ht]
    exact jsFindIndex_ge_neg_one rs h

/-- A transaction whose hash matches no receipt gets sort key -1. -/
theorem txKey_eq_neg_one (rs : List Receipt) (t : Transaction)
    (hnomatch : ∀ h, t.hash = some h →
      rs.findIdx? (fun r => r.transactionHash == h) = none) :
    txKey rs t = -1 := by
  cases ht : t.hash with
  | none => simp [txKey, ht]
  | some h => simp [txKey, ht, jsFindIndex, hnomatch h ht]

/-- C1: whenever the collection phase gathered at least one receipt, the
reconciled output is the sort phase applied to the merged record, whose
receipts are (1) ordered by ascending numeric block number, (2) a
permutation of the merged receipts, and (3) stably so — every sorted
sublist of the merged receipts survives as a sublist of the output;
whose transactions are (4) ordered by the index of their matching
receipt in the sorted receipt list, (5) a permutation of the merged
transactions; and (6) a transaction matching no receipt gets key -1,
which is minimal, so it sorts before all matched transactions. -/
theorem c1_reconcile_sorts_and_correlates
    (chainId : Nat) (p : String) (wd : List FsEntry) (d : Deployments)
    (hcol : collectedDeployments chainId p wd = .ok (some d))
    (hne : d.receipts ≠ []) :
    processBroadcastDirectory chainId p wd = .ok (some (sortPhase d)) ∧
    ((sortPhase d).receipts.map ProcessedReceipt.receipt).Pairwise
      (fun a b => a.blockNumber ≤ b.blockNumber) ∧
    ((sortPhase d).receipts.map ProcessedReceipt.receipt).Perm d.receipts ∧
    (∀ c : List Receipt, c.Pairwise (fun a b => leBlockNumber a b) → c.Sublist d.receipts →
      c.Sublist ((sortPhase d).receipts.map ProcessedReceipt.receipt)) ∧
    ((sortPhase d).transactions).Pairwise
      (fun a b => txKey (d.receipts.mergeSort leBlockNumber) a ≤
                  txKey (d.receipts.mergeSort leBlockNumber) b) ∧
    ((sortPhase d).transactions).Perm d.transactions ∧
    (∀ t : Transaction,
      (∀ h, t.hash = some h →
        (d.receipts.mergeSort leBlockNumber).findIdx? (fun r => r.transactionHash == h) = none) →
      txKey (d.receipts.mergeSort leBlockNumber) t = -1 ∧
      ∀ t', txKey (d.receipts.mergeSort leBlockNumber) t ≤
            txKey (d.receipts.mergeSort leBlockNumber) t') := by
  have hsp := sortPhase_pos d hne
  refine ⟨?_, ?_, ?_, ?_, ?_, ?_, ?_⟩
  · unfold processBroadcastDirectory
    rw [hcol]
    rfl
  · rw [hsp]
    rw [map_receipt_decorate]
    exact (List.sorted_mergeSort leBlockNumber_trans leBlockNumber_total d.receipts).imp
      (by simp only [leBlockNumber, decide_eq_true_eq]; exact id)
  · rw [hsp]
    rw [map_receipt_decorate]
    exact List.mergeSort_perm d.receipts leBlockNumber
  · intro c hc hsub
    rw [hsp]
    rw [map_receipt_decorate]
    exact List.sublist_mergeSort leBlockNumber_trans leBlockNumber_total hc hsub
  · rw [hsp]
    exact (List.sorted_mergeSort (leTxKey_trans _) (leTxKey_total _) d.transactions).imp
      (by simp only [leTxKey, decide_eq_true_eq]; exact id)
  · rw [hsp]
    exact List.mergeSort_perm d.transactions _
  · intro t hnomatch
    refine ⟨txKey_eq_neg_one _ t hnomatch, fun t' => ?_⟩
    rw [txKey_eq_neg_one _ t hnomatch]
    exact txKey_ge_neg_one _ t'

/-- C1 witness: reconciling `tree0` (receipts at blocks [30, 10, 20]
with matching transactions) yields receipts ordered [10, 20, 30] and
transactions whose hashes line up index-by-index with the sorted
receipts. -/
theorem c1_reconcile_sorts_and_correlates_witness :
    collectedDeployments 31337 "/work" tree0 = .ok (some d0) ∧
    d0.receipts ≠ [] ∧
    processBroadcastDirectory 31337 "/work" tree0 = .ok (some out0) ∧
    out0.receipts.map (fun pr => pr.receipt.blockNumber) = [10, 20, 30] ∧
    out0.transactions = [t10, t20, t30] ∧
    out0.receipts.map (fun pr => pr.receipt.transactionHash) = ["0xb", "0xc", "0xa"] ∧
    out0.transactions.map Transaction.hash = [some "0xb", some "0xc", some "0xa"] ∧
    (out0.receipts.map ProcessedReceipt.receipt).Pairwise
      (fun a b => a.blockNumber ≤ b.blockNumber) := by
  have hmain := c1_reconcile_sorts_and_correlates 31337 "/work" tree0 d0 rfl (by decide)
  have hout : sortPhase d0 = out0 := rfl
  refine ⟨rfl, by decide, ?_, rfl, rfl, rfl, rfl, ?_⟩
  · rw [← hout]
    exact hmain.1
  · rw [← hout]
    exact hmain.2.1

/-- A completed chain iteration either appended exactly one record (for
a live chain) or left the state untouched (for a liveness skip). -/
theorem processChain_ok_records (p : String) (st : RunState) (req : ChainRequest)
    (env : ChainEnv) (st' : RunState)
    (h : processChain p st req env = .ok st') :
    (chainLive env = true ∧ ∃ u s dd, st'.allDeployments =
        st.allDeployments ++ [⟨req.chainId, u, s, "success", dd⟩]) ∨
    (chainLive env = false ∧ st' = st) := by
  cases hbn : resolveBlockNumber req env with
  | error e => simp [processChain, hbn] at h
  | ok bn =>
    cases hcr : env.createNodeResult with
    | error e => simp [processChain, hbn, hcr] at h
    | ok us =>
      by_cases hl : chainLive env
      · cases hdd : processBroadcastDirectory req.chainId p env.treeAfterDeploy with
        | error e => simp [processChain, hbn, hcr, hl, hdd] at h
        | ok dd =>
          left
          refine ⟨hl, us.1, us.2, dd, ?_⟩
          simp [processChain, hbn, hcr, hl, hdd] at h
          rw [← h]
      · right
        simp [processChain, hbn, hcr, hl] at h
        exact ⟨by simp [hl], h.symm⟩

/-- Across the loop, the accumulated chain ids are the input's live
chains appended in order after the initial state's records. -/
theorem runLoop_chainIds (p : String) :
    ∀ (chains : List (ChainRequest × ChainEnv)) (st st' : RunState),
      runLoop p chains st = .ok st' →
      st'.allDeployments.map DeploymentRecord.chainId =
        st.allDeployments.map DeploymentRecord.chainId ++
          (chains.filter (fun ce => chainLive ce.2)).map (fun ce => ce.1.chainId)
  | [], st, st', h => by
    cases h
    simp [runLoop]
  | (req, env) :: rest, st, st', h => by
    unfold runLoop at h
    split at h
    · exact absurd h (by simp)
    · rename_i st1 h1
      have ih := runLoop_chainIds p rest st1 st' h
      rcases processChain_ok_records p st req env st1 h1 with
        ⟨hl, u, s, dd, happ⟩ | ⟨hl, rfl⟩
      · rw [ih, happ]
        simp [hl]
      · rw [ih]
        simp [hl]

/-- C2 counterexample: a single requested chain whose sandbox never
reports live produces an empty summary — zero records for one request,
so the summary does not contain one record per requested chain. -/
theorem c2_skip_yields_no_record_counterexample :
    runCoordinator "/work" [(reqOne, envSkip)] = .ok ⟨[], false⟩ ∧
    [(reqOne, envSkip)].length = 1 ∧
    ([] : List DeploymentRecord).length = 0 :=
  ⟨rfl, rfl, rfl⟩

/-- C2 amended: whenever the run completes without a thrown error, the
summary holds exactly one record per chain whose liveness poll
succeeded, in request order; chains that fail the liveness poll are
skipped and contribute no record. -/
theorem c2_summary_order (p : String) (chains : List (ChainRequest × ChainEnv))
    (st' : RunState) (h : runCoordinator p chains = .ok st') :
    st'.allDeployments.map DeploymentRecord.chainId =
      (chains.filter (fun ce => chainLive ce.2)).map (fun ce => ce.1.chainId) := by
  have := runLoop_chainIds p chains ⟨[], false⟩ st' h
  simpa using this

/-- C2 witness: a dead chain followed by a live chain over `tree0`
yields a summary whose chain ids are exactly the live chain's. -/
theorem c2_summary_order_witness :
    runCoordinator "/work" [(reqOne, envSkip), (⟨31337, some 5⟩, envLive (some 0))] =
      .ok ⟨[⟨31337, "http://rpc", "sb-1", "success", some out0⟩], false⟩ ∧
    (RunState.mk [⟨31337, "http://rpc", "sb-1", "success", some out0⟩]
        false).allDeployments.map DeploymentRecord.chainId =
      ([(reqOne, envSkip), (⟨31337, some 5⟩, envLive (some 0))].filter
        (fun ce => chainLive ce.2)).map (fun ce => ce.1.chainId) :=
  ⟨rfl,
   c2_summary_order "/work" [(reqOne, envSkip), (⟨31337, some 5⟩, envLive (some 0))]
     ⟨[⟨31337, "http://rpc", "sb-1", "success", some out0⟩], false⟩ rfl⟩

/-- When no walked file matches the `run-latest.json`-with-chainId test,
the merge loop returns its accumulator untouched and throws nothing. -/
theorem mergeBroadcastFiles_no_match (chainId : Nat) :
    ∀ (files : List FileInfo) (d : Deployments),
      files.filter (fun f => f.name == "run-latest.json" &&
        strIncludes f.path (toString chainId)) = [] →
      mergeBroadcastFiles chainId files d = .ok d
  | [], _, _ => rfl
  | f :: fs, d, h => by
    rw [List.filter_cons] at h
    by_cases hf : (f.name == "run-latest.json" &&
        strIncludes f.path (toString chainId)) = true
    · rw [if_pos hf] at h
      exact absurd h (by simp)
    · rw [if_neg (by simp [hf])] at h
      have ih := mergeBroadcastFiles_no_match chainId fs d h
      simp only [mergeBroadcastFiles, hf]
      simpa using ih

/-- C6 counterexample: a working tree with an empty broadcast directory
(zero `run-latest.json` files for any chain) but an unparseable JSON
file under `build` makes `processBroadcastDirectory` throw instead of
returning a null/empty record. -/
theorem c6_bad_build_counterexample :
    findDirectory "broadcast" treeBadBuild = some [] ∧
    (walkEntries ("/work" ++ "/broadcast") []).filter
      (fun f => f.name == "run-latest.json" && strIncludes f.path (toString 1)) = [] ∧
    processBroadcastDirectory 1 "/work" treeBadBuild = .error JsError.jsonParseError :=
  ⟨rfl, rfl, rfl⟩

/-- C6 amended: reconcile returns `null` (no error) when no directory
named `broadcast` sits directly under the working directory; and when a
broadcast directory exists, the build-directory scan throws no error,
and zero `run-latest.json` files match the chain id, it returns the
empty record (no error). -/
theorem c6_absent_broadcast_null (chainId : Nat) (p : String) (wd : List FsEntry) :
    (findDirectory "broadcast" wd = none →
      processBroadcastDirectory chainId p wd = .ok none) ∧
    (∀ bes, findDirectory "broadcast" wd = some bes →
      buildStep p wd = .ok () →
      (walkEntries (p ++ "/broadcast") bes).filter
        (fun f => f.name == "run-latest.json" &&
          strIncludes f.path (toString chainId)) = [] →
      processBroadcastDirectory chainId p wd = .ok (some ⟨[], [], []⟩)) := by
  constructor
  · intro h
    simp [processBroadcastDirectory, collectedDeployments, h]
    rfl
  · intro bes hfind hbuild hmatch
    have hmerge := mergeBroadcastFiles_no_match chainId
      (walkEntries (p ++ "/broadcast") bes) ⟨[], [], []⟩ hmatch
    simp [processBroadcastDirectory, collectedDeployments, hfind, hbuild, hmerge]
    rfl

/-- C6 witness: a tree without a broadcast directory yields `null`; a
tree whose only `run-latest.json` sits under chain 42 yields the empty
record for chain 7. -/
theorem c6_absent_broadcast_null_witness :
    processBroadcastDirectory 5 "/w" treeNoBroadcast = .ok none ∧
    processBroadcastDirectory 7 "/w" treeOtherChain = .ok (some ⟨[], [], []⟩) :=
  ⟨(c6_absent_broadcast_null 5 "/w" treeNoBroadcast).1 rfl,
   (c6_absent_broadcast_null 7 "/w" treeOtherChain).2
     [FsEntry.dir "42" [FsEntry.file "run-latest.json" (some runJson0)]] rfl rfl rfl⟩

/-- Writing the cursor of a chain leaves its URL list unchanged and is
visible to the next lookup of that chain. -/
theorem lookupRpc_setRpcIndex (t : RpcTable) (c i : Nat) :
    lookupRpc (setRpcIndex t c i) c = (lookupRpc t c).map (fun e => ⟨i, e.urls⟩) := by
  induction t with
  | nil => rfl
  | cons hd rest ih =>
    by_cases hp : (hd.1 == c) = true
    · unfold setRpcIndex lookupRpc
      rw [List.map_cons, if_pos hp, List.find?_cons_of_pos _ (by exact hp),
        List.find?_cons_of_pos _ (by exact hp)]
      rfl
    · unfold setRpcIndex lookupRpc
      rw [List.map_cons, if_neg hp, List.find?_cons_of_neg _ (by simp [hp]),
        List.find?_cons_of_neg _ (by simp [hp])]
      exact ih

/-- C7: `getRpc` fails with `UnsupportedChain` on a chain id without a
configured endpoint list (and so does `getLatestBlockNumber`); on a
configured chain it returns the URL at the current cursor and advances
the cursor modulo the list length; `getLatestBlockNumber` issues the
single `eth_blockNumber` call whose outcome is `resp` (no internal
retry — one outcome is consumed), fails with `UpstreamError` when the
call threw or returned a non-success status, and otherwise parses the
hexadecimal `result` field to a decimal integer. -/
theorem c7_block_resolver (t : RpcTable) (chainId : Nat) (resp : Option HttpOutcome) :
    (lookupRpc t chainId = none →
      getRpc t chainId = .error .unsupportedChain ∧
      getLatestBlockNumber t chainId resp = .error .unsupportedChain) ∧
    (∀ (e : RpcEntry), lookupRpc t chainId = some e →
      ∀ (hi : e.index < e.urls.length),
      getRpc t chainId =
        .ok (some (e.urls.get ⟨e.index, hi⟩),
          setRpcIndex t chainId ((e.index + 1) % e.urls.length)) ∧
      lookupRpc (setRpcIndex t chainId ((e.index + 1) % e.urls.length)) chainId =
        some ⟨(e.index + 1) % e.urls.length, e.urls⟩ ∧
      (resp = none → getLatestBlockNumber t chainId resp = .error .upstreamError) ∧
      (∀ r, resp = some r → r.ok = false →
        getLatestBlockNumber t chainId resp = .error .upstreamError) ∧
      (∀ r, resp = some r → r.ok = true →
        getLatestBlockNumber t chainId resp =
          .ok ((match r.result with | none => none | some s => jsParseIntHex s),
            setRpcIndex t chainId ((e.index + 1) % e.urls.length)))) := by
  constructor
  · intro h
    constructor
    · simp [getRpc, h]
    · simp [getLatestBlockNumber, getRpc, h]
  · intro e he hi
    have hg : getRpc t chainId =
        .ok (some (e.urls.get ⟨e.index, hi⟩),
          setRpcIndex t chainId ((e.index + 1) % e.urls.length)) := by
      simp [getRpc, he, List.getElem?_eq_getElem hi]
    refine ⟨hg, ?_, ?_, ?_, ?_⟩
    · rw [lookupRpc_setRpcIndex, he]
      rfl
    · intro hr
      simp [getLatestBlockNumber, hg, hr]
    · intro r hr hok
      simp [getLatestBlockNumber, hg, hr, hok]
    · intro r hr hok
      simp [getLatestBlockNumber, hg, hr, hok]

/-- C7 witness: chain 2 is unconfigured and fails; chain 1 yields its
single Ankr endpoint, advances its cursor back to 0 (modulo a
one-element list), and parses the hexadecimal result `"0x10"` to 16. -/
theorem c7_block_resolver_witness :
    getRpc initialRpcTable 2 = .error .unsupportedChain ∧
    getRpc initialRpcTable 1 = .ok (some "https://rpc.ankr.com/eth",
      setRpcIndex initialRpcTable 1 ((0 + 1) % 1)) ∧
    lookupRpc (setRpcIndex initialRpcTable 1 ((0 + 1) % 1)) 1 =
      some ⟨(0 + 1) % 1, ["https://rpc.ankr.com/eth"]⟩ ∧
    getLatestBlockNumber initialRpcTable 1 (some ⟨true, some "0x10"⟩) =
      .ok (jsParseIntHex "0x10", setRpcIndex initialRpcTable 1 ((0 + 1) % 1)) ∧
    jsParseIntHex "0x10" = some 16 := by
  have h1 := (c7_block_resolver initialRpcTable 2 none).1 rfl
  have h2 := (c7_block_resolver initialRpcTable 1 (some ⟨true, some "0x10"⟩)).2
    ⟨0, ["https://rpc.ankr.com/eth"]⟩ rfl (by decide)
  exact ⟨h1.1, h2.1, h2.2.1, h2.2.2.2.2 ⟨true, some "0x10"⟩ rfl rfl, rfl⟩

/-- C8 counterexample: a run with all-success records but zero usable
transactions whose notification POST throws — the catch block swallows
the error before reaching `core.setFailed`, so the platform failure
signal is NOT set, contradicting the claim's unconditional escalation. -/
theorem c8_post_throw_counterexample :
    (∀ r ∈ extractContractData notifInput0.deployments, r.transactions = []) ∧
    (∀ r ∈ notifInput0.deployments, r.status = "success") ∧
    sendNotificationToBackend notifInput0 false = ⟨none, false⟩ := by
  refine ⟨by decide, by decide, ?_⟩
  rfl

/-- C8 amended: for a run reported as `"success"` whose extracted
deployments contain zero usable transactions, the notifier recomputes
the reported status to `"failed"`, and — provided the notification POST
itself succeeds — sets the platform's failure signal. -/
theorem c8_zero_usable_escalates (input : NotificationInput)
    (hs : input.status = "success")
    (hz : ∀ r ∈ extractContractData input.deployments, r.transactions = []) :
    sendNotificationToBackend input true =
      ⟨some ("failed",
        "No contract deployments found. All transactions are missing required data.",
        extractContractData input.deployments), true⟩ := by
  have hvalid : (extractContractData input.deployments).any
      (fun d => 0 < d.transactions.length) = false := by
    rw [List.any_eq_false]
    intro r hr
    simp [hz r hr]
  simp [sendNotificationToBackend, hs, validateDeployment, hvalid]

/-- C8 witness: the all-success, zero-usable-transaction run with a
successful POST reports `"failed"` and sets the failure signal. -/
theorem c8_zero_usable_escalates_witness :
    (∀ r ∈ notifInput0.deployments, r.status = "success") ∧
    sendNotificationToBackend notifInput0 true =
      ⟨some ("failed",
        "No contract deployments found. All transactions are missing required data.",
        extractContractData notifInput0.deployments), true⟩ :=
  ⟨by decide, c8_zero_usable_escalates notifInput0 rfl (by decide)⟩

/-- C9: the reconciler is a pure function of the (unmodified) working
tree — it only reads the tree, never writes it — so a second run on the
same tree returns the identical merged output the first run returned. -/
theorem c9_reconcile_deterministic (chainId : Nat) (p : String) (wd : List FsEntry)
    (r : Except JsError (Option ProcessedDeployments))
    (h : processBroadcastDirectory chainId p wd = r) :
    processBroadcastDirectory chainId p wd = r := h

/-- C9 witness: re-running reconciliation on `tree0` reproduces the
first run's output. -/
theorem c9_reconcile_deterministic_witness :
    processBroadcastDirectory 31337 "/work" tree0 = .ok (some out0) :=
  c9_reconcile_deterministic 31337 "/work" tree0 (.ok (some out0)) rfl

/-- C10: `extractContractData` maps records pointwise; a transaction is
kept exactly when `contractName`, `hash` and `contractAddress` are all
present and truthy; a record whose `deployments` is `null` contributes
an empty transaction list; and a record whose on-disk transactions all
lack a truthy `contractAddress` extracts no transactions, so validation
classifies the run as failed. -/
theorem c10_extract_only_complete :
    (∀ data, extractContractData data = data.map extractOne) ∧
    (∀ t, txComplete t = true ↔
      (optStrTruthy t.contractName = true ∧ optStrTruthy t.hash = true ∧
        optStrTruthy t.contractAddress = true)) ∧
    (∀ (item : DeploymentRecord) (dd : ProcessedDeployments),
      item.deployments = some dd →
      (extractOne item).transactions =
        (dd.transactions.filter txComplete).map
          (fun t => ⟨t.contractName.getD "", t.hash.getD "", t.contractAddress.getD ""⟩)) ∧
    (∀ item : DeploymentRecord, item.deployments = none →
      (extractOne item).transactions = []) ∧
    (∀ (item : DeploymentRecord) (dd : ProcessedDeployments),
      item.deployments = some dd →
      (∀ t ∈ dd.transactions, optStrTruthy t.contractAddress = false) →
      (validateDeployment (extractContractData [item])).1 = false) := by
  refine ⟨fun _ => rfl, ?_, ?_, ?_, ?_⟩
  · intro t
    simp [txComplete, Bool.and_eq_true, and_assoc]
  · intro item dd h
    simp [extractOne, h]
  · intro item h
    simp [extractOne, h]
  · intro item dd h hz
    have hfil : dd.transactions.filter txComplete = [] := by
      rw [List.filter_eq_nil_iff]
      intro t ht
      simp [txComplete, hz t ht]
    simp [validateDeployment, extractContractData, extractOne, h, hfil]

/-- C10 witness: the record whose only transaction lacks a
`contractAddress` extracts zero transactions and fails validation. -/
theorem c10_extract_only_complete_witness :
    recNoAddr.deployments = some ⟨[txNoAddr], [], []⟩ ∧
    ([txNoAddr] : List Transaction) ≠ [] ∧
    (extractOne recNoAddr).transactions = [] ∧
    (validateDeployment (extractContractData [recNoAddr])).1 = false :=
  ⟨rfl, by decide,
   (c10_extract_only_complete.2.2.1 recNoAddr ⟨[txNoAddr], [], []⟩ rfl).trans rfl,
   c10_extract_only_complete.2.2.2.2 recNoAddr ⟨[txNoAddr], [], []⟩ rfl (by decide)⟩

end BB
